import Mathlib

/-!
Shallow embedding of the storage-cluster event synthesizer (src/app.py,
section 5 "FAKE EVENT SIMULATION").  The Python code draws values from the
`random` module's seeded PRNG, from the Faker library (user names, private
IPv4 addresses) and from `uuid.uuid4()` (backed by OS entropy, not by the
seeded PRNG).  The embedding makes each draw an explicit input:

  * `Draws` packages every value produced by the PRNG / Faker during one
    `generate_event` call (`randint a b` is modelled as `a + x % (b-a+1)`
    for a raw draw `x`, `random.choice l` as indexing by `i % l.length`,
    `random.random()` as a rational `u`, intended to lie in `[0,1)`);
  * the `uuid.uuid4()` result is a separate `correlation_id : String`
    argument, since it does not derive from the PRNG seed;
  * the mutable global volume catalog is threaded explicitly: the caller
    passes the current list and receives the (possibly updated) list back.

Severities use the numeric values of Python's `logging` module.
-/

namespace App

/-- Numeric level of `logging.DEBUG`. -/
def DEBUG : Nat := 10
/-- Numeric level of `logging.INFO`. -/
def INFO : Nat := 20
/-- Numeric level of `logging.WARNING`. -/
def WARNING : Nat := 30
/-- Numeric level of `logging.ERROR`. -/
def ERROR : Nat := 40
/-- Numeric level of `logging.CRITICAL`. -/
def CRITICAL : Nat := 50

/-- A simulated cluster member (src/app.py `nodes` entries). -/
structure Node where
  id : String
  cluster : String
  ip : String
  region : String
deriving DecidableEq

/-- A simulated storage volume (src/app.py `volumes` entries);
`capacity_gb` is the field mutated in place by `VOLUME_EXPANDED`. -/
structure Volume where
  id : String
  cluster : String
  capacity_gb : Nat
deriving DecidableEq

/-- The static node catalog (src/app.py lines 194-200). -/
def nodes : List Node :=
  [⟨"node1", "clusterA", "10.0.0.1", "us-east-1"⟩,
   ⟨"node2", "clusterA", "10.0.0.2", "us-east-1"⟩,
   ⟨"node3", "clusterB", "10.1.0.1", "us-west-2"⟩,
   ⟨"node4", "clusterB", "10.1.0.2", "us-west-2"⟩,
   ⟨"node5", "clusterC", "10.2.0.1", "eu-central-1"⟩]

/-- The initial shared volume catalog (src/app.py lines 202-208). -/
def volumes : List Volume :=
  [⟨"vol-100", "clusterA", 500⟩,
   ⟨"vol-101", "clusterA", 1000⟩,
   ⟨"vol-200", "clusterB", 250⟩,
   ⟨"vol-201", "clusterB", 750⟩,
   ⟨"vol-300", "clusterC", 2000⟩]

/-- The static weighted event catalog (src/app.py lines 210-234):
`(name, severity level, weight)`.  Weights are exact rationals standing for
the Python float literals (each literal is exactly representable here). -/
def EVENTS : List (String × Nat × ℚ) :=
  [("NODE_JOINED", INFO, 0.05),
   ("NODE_LEFT", WARNING, 0.02),
   ("NODE_OFFLINE", ERROR, 0.03),
   ("NODE_REBOOT", WARNING, 0.01),
   ("VOLUME_CREATED", INFO, 0.07),
   ("VOLUME_EXPANDED", INFO, 0.05),
   ("VOLUME_DELETED", WARNING, 0.03),
   ("SNAPSHOT_CREATED", INFO, 0.08),
   ("SNAPSHOT_RESTORED", INFO, 0.06),
   ("BACKUP_COMPLETED", INFO, 0.08),
   ("BACKUP_FAILED", ERROR, 0.03),
   ("DATA_READ", INFO, 0.15),
   ("DATA_WRITE", INFO, 0.18),
   ("DATA_REPLICATION", INFO, 0.05),
   ("DATA_REPLICATION_FAILED", ERROR, 0.02),
   ("ALERT_CAPACITY", ERROR, 0.02),
   ("ALERT_PERFORMANCE", WARNING, 0.02),
   ("IO_TIMEOUT", ERROR, 0.01),
   ("CACHE_MISS", INFO, 0.05),
   ("DISK_FAILURE", CRITICAL, 0.005),
   ("FILE_CORRUPTION", CRITICAL, 0.005),
   ("MAINTENANCE_MODE_ENABLED", WARNING, 0.01),
   ("MAINTENANCE_MODE_DISABLED", INFO, 0.01)]

def DEVICE_TYPES : List String := ["desktop", "mobile", "tablet", "server"]

def OPERATING_SYSTEMS : List String :=
  ["Windows 10", "Windows Server 2022", "macOS 13.0", "Ubuntu 22.04",
   "CentOS 7", "Android 13", "iOS 16", "Red Hat Enterprise Linux 8"]

def BOT_USER_AGENTS : List String :=
  ["Mozilla/5.0 (compatible; Googlebot/2.1; +http://www.google.com/bot.html)",
   "Mozilla/5.0 (compatible; Bingbot/2.0; +http://www.bing.com/bingbot.htm)",
   "Mozilla/5.0 (compatible; YandexBot/3.0; +http://yandex.com/bots)"]

def REAL_USER_AGENTS : List String :=
  ["Mozilla/5.0 (Windows NT 10.0; Win64; x64) AppleWebKit/537.36 (KHTML, like Gecko) Chrome/112.0.5615.137 Safari/537.36",
   "Mozilla/5.0 (Macintosh; Intel Mac OS X 13_3) AppleWebKit/605.1.15 (KHTML, like Gecko) Version/16.0 Safari/605.1.15",
   "Mozilla/5.0 (Linux; Android 13; Pixel 7) AppleWebKit/537.36 (KHTML, like Gecko) Chrome/110.0 Mobile Safari/537.36",
   "Mozilla/5.0 (iPhone; CPU iPhone OS 16_4 like Mac OS X) AppleWebKit/604.1.34 (KHTML, like Gecko) Version/16.0 Mobile/15E148 Safari/604.1",
   "Mozilla/5.0 (X11; Linux x86_64) AppleWebKit/537.36 (KHTML, like Gecko) Chrome/110.0.5481.153 Safari/537.36",
   "Mozilla/5.0 (iPad; CPU OS 16_4 like Mac OS X) AppleWebKit/605.1.15 (KHTML, like Gecko) Version/16.0 Mobile/15E148 Safari/604.1",
   "Mozilla/5.0 (Windows NT 10.0; rv:112.0) Gecko/20100101 Firefox/112.0",
   "Mozilla/5.0 (Windows NT 10.0; WOW64; rv:55.0) Gecko/20100101 Firefox/55.0"]

def BOT_CHANCE : ℚ := 0.03

def PRIORITIES : List String := ["P0", "P1", "P2", "P3"]

def ALL_TAGS : List String :=
  ["production", "infra", "beta", "urgent", "devops", "high-traffic", "critical"]

def PHASES : List String := ["init", "processing", "finalizing", "cleanup", "verifying"]

def DEPARTMENTS : List String := ["sales", "engineering", "it", "devops", "finance"]

/-- Model of `random.randint(a, b)` (both ends inclusive) applied to a raw
PRNG draw `x`. -/
def randint (a b x : Nat) : Nat := a + x % (b - a + 1)

/-- Model of `random.choice l` applied to a raw index draw `i`. -/
def choice (l : List α) (dflt : α) (i : Nat) : α := l.getD (i % l.length) dflt

/-- Model of `random.sample(ALL_TAGS, k)` for `k ∈ {0,1,2}` from raw index
draws `i`, `j`: `k` distinct tags. -/
def sampleTags (k i j : Nat) : List String :=
  if k = 0 then []
  else if k = 1 then [choice ALL_TAGS "" i]
  else
    let first := i % ALL_TAGS.length
    let rest := ALL_TAGS.eraseIdx first
    [ALL_TAGS.getD first "", rest.getD (j % rest.length) ""]

/-- Model of Python's `round(q, 2)` on the simulated float draws (exact
rounding mode of floats is immaterial to every property proved here). -/
def round2 (q : ℚ) : ℚ := ((q * 100).floor : ℚ) / 100

/-- Model of `hex(n)[2:]`: lowercase hexadecimal digits of `n`. -/
def hexStr (n : Nat) : String := String.mk (Nat.toDigits 16 n)

/-- `pick_user_agent` (src/app.py lines 259-260): a bot agent when the
uniform roll falls under `BOT_CHANCE`, otherwise a real-browser agent. -/
def pick_user_agent (roll : ℚ) (botIdx agentIdx : Nat) : String :=
  if roll < BOT_CHANCE then choice BOT_USER_AGENTS "" botIdx
  else choice REAL_USER_AGENTS "" agentIdx

/-- The accumulating scan inside `weighted_choice` (src/app.py lines
271-276): walk the catalog keeping a running cumulative weight, return the
first entry whose cumulative weight exceeds the draw `r`; after a full
unmatched scan return the `("DATA_WRITE", logging.INFO)` fallback. -/
def weightedScan (r : ℚ) (cumulative : ℚ) :
    List (String × Nat × ℚ) → String × Nat
  | [] => ("DATA_WRITE", INFO)
  | e :: rest =>
    let c := cumulative + e.2.2
    if r < c then (e.1, e.2.1) else weightedScan r c rest

/-- `weighted_choice` (src/app.py lines 268-276): draw
`r = random.random() * total_weight` and scan. -/
def weighted_choice (events : List (String × Nat × ℚ)) (u : ℚ) : String × Nat :=
  let total_weight := (events.map (fun e => e.2.2)).sum
  let r := u * total_weight
  weightedScan r 0 events

/-- A structured-field value: Python scalars and the one string-list value
(`tags`) that `generate_event` puts into `extra`. -/
inductive Value where
  | str (s : String)
  | nat (n : Nat)
  | rat (q : ℚ)
  | bool (b : Bool)
  | list (l : List String)
deriving DecidableEq

/-- All PRNG/Faker draws consumed by one `generate_event` call, in source
order.  `branchX`, `branchY`, `branchIdx`, `branchQ` are the draws of the
selected event branch (each branch makes at most two integer draws, one
choice draw and one uniform draw). -/
structure Draws where
  u : ℚ
  nodeIdx : Nat
  volIdx : Nat
  user : String
  processIdX : Nat
  deviceIdx : Nat
  osIdx : Nat
  botRoll : ℚ
  botIdx : Nat
  agentIdx : Nat
  callerIp : String
  cpuX : Nat
  memX : Nat
  priorityIdx : Nat
  numTagsX : Nat
  tagI : Nat
  tagJ : Nat
  phaseIdx : Nat
  orgX : Nat
  deptIdx : Nat
  diskTempX : Nat
  ioQueueX : Nat
  branchX : Nat
  branchY : Nat
  branchIdx : Nat
  branchQ : ℚ
deriving DecidableEq

def defNode : Node := ⟨"", "", "", ""⟩
def defVolume : Volume := ⟨"", "", 0⟩

/-- One `generate_event` call's result: the returned
`(level, message, extra)` triple plus the volume catalog after the call
(the Python code mutates the global list in place). -/
structure GenOut where
  level : Nat
  message : String
  extra : List (String × Value)
  volumes : List Volume
deriving DecidableEq

/-- The `extra` map as built before the event-specific `if`/`elif` chain
(src/app.py lines 299-328), in Python insertion order: the common fields,
`org_id`/`department`, and the two disk fields added up front for
`DISK_FAILURE` / `FILE_CORRUPTION`.  Built from the pre-branch `volume`
snapshot, before any mutation. -/
def baseExtra (event_name : String) (node : Node) (volume : Volume)
    (d : Draws) (correlation_id : String) : List (String × Value) :=
  [("event", .str event_name),
   ("cluster", .str node.cluster),
   ("node_id", .str node.id),
   ("node_ip", .str node.ip),
   ("node_region", .str node.region),
   ("volume_id", .str volume.id),
   ("volume_cluster", .str volume.cluster),
   ("volume_capacity_gb", .nat volume.capacity_gb),
   ("process_id", .nat (randint 100 9999 d.processIdX)),
   ("device_type", .str (choice DEVICE_TYPES "" d.deviceIdx)),
   ("os_version", .str (choice OPERATING_SYSTEMS "" d.osIdx)),
   ("user_agent", .str (pick_user_agent d.botRoll d.botIdx d.agentIdx)),
   ("caller_ip", .str d.callerIp),
   ("correlation_id", .str correlation_id),
   ("cpu_usage_percent", .nat (randint 1 99 d.cpuX)),
   ("memory_free_mb", .nat (randint 100 32000 d.memX)),
   ("priority", .str (choice PRIORITIES "" d.priorityIdx)),
   ("tags", .list (sampleTags (randint 0 2 d.numTagsX) d.tagI d.tagJ)),
   ("phase", .str (choice PHASES "" d.phaseIdx)),
   ("org_id", .nat (randint 1 20 d.orgX)),
   ("department", .str (choice DEPARTMENTS "" d.deptIdx))]
  ++ (if event_name = "DISK_FAILURE" ∨ event_name = "FILE_CORRUPTION" then
       [("disk_temperature_c", .nat (randint 30 90 d.diskTempX)),
        ("io_queue_length", .nat (randint 0 100 d.ioQueueX))]
      else [])

/-- The event-specific `if`/`elif` chain of `generate_event` (src/app.py
lines 330-426): from the selected name, the picked node, the pre-branch
snapshot of the picked volume at index `vIdx`, the Faker user name and the
branch draws, produce the message, the fields that branch appends to
`extra`, and the volume catalog after the branch (only `VOLUME_EXPANDED`
writes to it). -/
def branch (event_name : String) (node : Node) (volume : Volume) (vIdx : Nat)
    (user : String) (d : Draws) (vols : List Volume) :
    String × List (String × Value) × List Volume :=
  if event_name = "NODE_JOINED" then
    ("Node " ++ node.id ++ " joined cluster " ++ node.cluster ++ " in region " ++ node.region,
     [], vols)
  else if event_name = "NODE_LEFT" then
    ("Node " ++ node.id ++ " LEFT cluster " ++ node.cluster ++ " (possible maintenance)",
     [], vols)
  else if event_name = "NODE_OFFLINE" then
    ("Node " ++ node.id ++ " is OFFLINE, IP=" ++ node.ip ++ ", cluster=" ++ node.cluster ++ "!",
     [("reason", .str "Connectivity Lost")], vols)
  else if event_name = "NODE_REBOOT" then
    ("Node " ++ node.id ++ " is rebooting for scheduled maintenance",
     [("reboot_reason", .str (choice ["hardware upgrade", "software update", "unexpected error"] "" d.branchIdx))],
     vols)
  else if event_name = "VOLUME_CREATED" then
    let new_size := randint 100 3000 d.branchX
    ("Volume " ++ volume.id ++ " CREATED with " ++ toString new_size ++ "GB",
     [("new_size_gb", .nat new_size), ("created_by", .str user)], vols)
  else if event_name = "VOLUME_EXPANDED" then
    let old_size := volume.capacity_gb
    let add_size := randint 100 500 d.branchX
    let new_size := old_size + add_size
    ("Volume " ++ volume.id ++ " expanded from " ++ toString old_size ++ "GB to " ++ toString new_size ++ "GB",
     [("old_size_gb", .nat old_size), ("new_size_gb", .nat new_size), ("expanded_by", .str user)],
     vols.set vIdx { volume with capacity_gb := new_size })
  else if event_name = "VOLUME_DELETED" then
    ("Volume " ++ volume.id ++ " was DELETED from cluster " ++ node.cluster,
     [("deleted_by", .str user)], vols)
  else if event_name = "SNAPSHOT_CREATED" then
    let snap_id := "snap-" ++ toString (randint 1000 9999 d.branchX)
    ("Snapshot " ++ snap_id ++ " created for volume " ++ volume.id,
     [("snapshot_id", .str snap_id), ("created_by", .str user)], vols)
  else if event_name = "SNAPSHOT_RESTORED" then
    let snap_id := "snap-" ++ toString (randint 1000 9999 d.branchX)
    ("Snapshot " ++ snap_id ++ " restored onto volume " ++ volume.id,
     [("snapshot_id", .str snap_id), ("restored_by", .str user)], vols)
  else if event_name = "BACKUP_COMPLETED" then
    ("Backup completed for volume " ++ volume.id, [("backup_by", .str user)], vols)
  else if event_name = "BACKUP_FAILED" then
    ("Backup FAILED for volume " ++ volume.id,
     [("error", .str "Simulated backup error"), ("backup_user", .str user)], vols)
  else if event_name = "DATA_READ" then
    let size_mb := randint 1 500 d.branchX
    let read_latency := randint 1 400 d.branchY
    ("Data read " ++ toString size_mb ++ "MB from volume " ++ volume.id ++ " by user " ++ user,
     [("read_mb", .nat size_mb), ("latency_ms", .nat read_latency)], vols)
  else if event_name = "DATA_WRITE" then
    let size_mb := randint 1 2000 d.branchX
    let write_latency := randint 10 2000 d.branchY
    ("Data write " ++ toString size_mb ++ "MB to volume " ++ volume.id ++ " by user " ++ user,
     [("written_mb", .nat size_mb), ("latency_ms", .nat write_latency)], vols)
  else if event_name = "DATA_REPLICATION" then
    ("Data replication started on node " ++ node.id ++ " for volume " ++ volume.id,
     [("replication_initiator", .str user), ("throughput_mb_s", .rat (round2 d.branchQ))],
     vols)
  else if event_name = "DATA_REPLICATION_FAILED" then
    ("Data replication FAILED on node " ++ node.id ++ " for volume " ++ volume.id,
     [("error", .str "Simulated replication failure")], vols)
  else if event_name = "ALERT_CAPACITY" then
    let usage_gb := volume.capacity_gb + randint 100 300 d.branchX
    ("Capacity ALERT: volume " ++ volume.id ++ " usage=" ++ toString usage_gb
       ++ "GB / capacity=" ++ toString volume.capacity_gb ++ "GB!",
     [("usage_gb", .nat usage_gb)], vols)
  else if event_name = "ALERT_PERFORMANCE" then
    let iops := randint 10000 50000 d.branchX
    ("Performance ALERT: node " ++ node.id ++ " iops=" ++ toString iops ++ "!",
     [("iops", .nat iops)], vols)
  else if event_name = "IO_TIMEOUT" then
    let timeout_duration := randint 100 2000 d.branchX
    ("I/O timeout on node " ++ node.id ++ " for volume " ++ volume.id
       ++ " (timeout: " ++ toString timeout_duration ++ "ms)",
     [("timeout_duration_ms", .nat timeout_duration)], vols)
  else if event_name = "CACHE_MISS" then
    ("Cache miss for volume " ++ volume.id ++ ", falling back to disk read",
     [("cache_hit_ratio", .rat (round2 d.branchQ))], vols)
  else if event_name = "DISK_FAILURE" then
    let disk_id := "disk-" ++ toString (randint 1 8 d.branchX)
    ("Critical: Disk failure detected on node " ++ node.id ++ " (disk " ++ disk_id ++ ")",
     [("disk_id", .str disk_id),
      ("error_code", .str (choice ["E101", "E202", "E303"] "" d.branchIdx))],
     vols)
  else if event_name = "FILE_CORRUPTION" then
    ("Critical: File corruption detected in volume " ++ volume.id ++ " on node " ++ node.id,
     [("corruption_level", .str (choice ["minor", "severe"] "" d.branchIdx)),
      ("error_checksum", .str (hexStr (randint 0 0xFFFFFF d.branchX)))],
     vols)
  else if event_name = "MAINTENANCE_MODE_ENABLED" then
    ("MAINTENANCE MODE ENABLED on cluster " ++ node.cluster,
     [("enabled_by", .str user)], vols)
  else if event_name = "MAINTENANCE_MODE_DISABLED" then
    ("MAINTENANCE MODE DISABLED on cluster " ++ node.cluster,
     [("disabled_by", .str user)], vols)
  else
    ("UNKNOWN EVENT " ++ event_name, [("unknown_event", .bool true)], vols)

/-- `generate_event` (src/app.py lines 281-428): select the event kind by
weighted choice, pick a node and a volume, build the common `extra` fields
from the pre-branch volume snapshot, run the event-specific branch, and
return `(level, message, extra)` together with the volume catalog after
the call. -/
def generate_event (d : Draws) (correlation_id : String)
    (vols : List Volume) : GenOut :=
  let p := weighted_choice EVENTS d.u
  let node := choice nodes defNode d.nodeIdx
  let vIdx := d.volIdx % vols.length
  let volume := vols.getD vIdx defVolume
  let br := branch p.1 node volume vIdx d.user d vols
  { level := p.2
    message := br.1
    extra := baseExtra p.1 node volume d correlation_id ++ br.2.1
    volumes := br.2.2 }

/-! ## Helper lemmas and spec-side definitions -/

/-- Inclusive cumulative weights: each catalog entry paired with the sum of
all weights up to and including it, starting from `acc`. -/
def cumWeights : List (String × Nat × ℚ) → ℚ → List ((String × Nat × ℚ) × ℚ)
  | [], _ => []
  | e :: rest, acc => (e, acc + e.2.2) :: cumWeights rest (acc + e.2.2)

/-- The weighted selector as the specification words it (§4.1): draw
`r = u * total_weight`, return the first catalog entry whose cumulative
weight strictly exceeds `r`, and the designated default
`("DATA_WRITE", INFO)` when the full scan leaves the draw unmatched. -/
def weightedChoiceSpec (events : List (String × Nat × ℚ)) (u : ℚ) : String × Nat :=
  let total_weight := (events.map fun e => e.2.2).sum
  let r := u * total_weight
  ((cumWeights events 0).find? (fun p => decide (r < p.2))).elim
    ("DATA_WRITE", INFO) (fun p => (p.1.1, p.1.2.1))

/-- The severity the static catalog assigns to an event name: the severity
component of the catalog entry carrying that name. -/
def catalogSeverity (n : String) : Nat :=
  ((EVENTS.find? (fun e => e.1 == n)).map (fun e => e.2.1)).getD INFO

theorem weightedScan_eq_find (events : List (String × Nat × ℚ)) (r acc : ℚ) :
    weightedScan r acc events
      = ((cumWeights events acc).find? (fun p => decide (r < p.2))).elim
          ("DATA_WRITE", INFO) (fun p => (p.1.1, p.1.2.1)) := by
  induction events generalizing acc with
  | nil => rfl
  | cons e rest ih =>
    simp only [weightedScan, cumWeights]
    by_cases h : r < acc + e.2.2
    · rw [if_pos h, List.find?_cons_of_pos _ (by simpa using h)]
      rfl
    · rw [if_neg h, List.find?_cons_of_neg _ (by simpa using h)]
      exact ih (acc + e.2.2)

theorem weightedScan_mem (events : List (String × Nat × ℚ)) (r acc : ℚ) :
    weightedScan r acc events ∈ events.map (fun e => (e.1, e.2.1))
      ∨ weightedScan r acc events = ("DATA_WRITE", INFO) := by
  induction events generalizing acc with
  | nil => exact Or.inr rfl
  | cons e rest ih =>
    simp only [weightedScan]
    by_cases h : r < acc + e.2.2
    · rw [if_pos h]
      exact Or.inl (by simp)
    · rw [if_neg h]
      rcases ih (acc + e.2.2) with hm | hf
      · exact Or.inl (by simp only [List.map_cons, List.mem_cons]; exact Or.inr hm)
      · exact Or.inr hf

/-- `weighted_choice` only ever returns a `(name, severity)` pair of the
catalog or the hard-coded fallback pair. -/
theorem weighted_choice_mem (events : List (String × Nat × ℚ)) (u : ℚ) :
    weighted_choice events u ∈ events.map (fun e => (e.1, e.2.1))
      ∨ weighted_choice events u = ("DATA_WRITE", INFO) :=
  weightedScan_mem events _ 0

theorem weightedScan_all_zero (events : List (String × Nat × ℚ)) (cum : ℚ)
    (h : ∀ e ∈ events, e.2.2 = 0) (hc : ¬ (0 : ℚ) < cum) :
    weightedScan 0 cum events = ("DATA_WRITE", INFO) := by
  induction events generalizing cum with
  | nil => rfl
  | cons e rest ih =>
    simp only [weightedScan]
    have hw : e.2.2 = 0 := h e (List.mem_cons_self e rest)
    rw [if_neg (by rw [hw, add_zero]; exact hc)]
    exact ih (cum + e.2.2) (fun x hx => h x (List.mem_cons_of_mem e hx))
      (by rw [hw, add_zero]; exact hc)

/-- Capacities never shrink when one volume's capacity is bumped by `δ`. -/
theorem capsMono (vols : List Volume) (i δ : Nat) :
    List.Forall₂ (fun a b => a.capacity_gb ≤ b.capacity_gb) vols
      (vols.set i { vols.getD i defVolume with
        capacity_gb := (vols.getD i defVolume).capacity_gb + δ }) := by
  induction vols generalizing i with
  | nil => exact List.Forall₂.nil
  | cons v t ih =>
    cases i with
    | zero =>
      exact List.Forall₂.cons (Nat.le_add_right _ _)
        (List.forall₂_same.mpr fun x _ => le_refl _)
    | succ n => exact List.Forall₂.cons (le_refl _) (ih n)

/-- The event-specific branch leaves the volume catalog unchanged except
for `VOLUME_EXPANDED`, which bumps the picked volume's capacity by the
`randint 100 500` draw. -/
theorem branch_volumes (event_name : String) (node : Node) (volume : Volume)
    (vIdx : Nat) (user : String) (d : Draws) (vols : List Volume) :
    (branch event_name node volume vIdx user d vols).2.2
      = if event_name = "VOLUME_EXPANDED"
        then vols.set vIdx { volume with
          capacity_gb := volume.capacity_gb + randint 100 500 d.branchX }
        else vols := by
  by_cases h : event_name = "VOLUME_EXPANDED"
  · subst h; rfl
  · rw [if_neg h]
    simp only [branch, h, if_false,
      apply_ite (fun t : String × List (String × Value) × List Volume => t.2.2),
      ite_self]

/-! ## Claim theorems -/

/-- C1: `capacity_gb` of every volume in the shared catalog is monotonically
non-decreasing across `generate_event` calls: a `VOLUME_EXPANDED` selection
sets the picked volume's capacity to `old + delta` with
`delta = randint 100 500 ∈ [100, 500]` and the returned catalog holds the new
value, while any other selected event kind returns the catalog unchanged. -/
theorem C1_volume_capacity_monotone (d : Draws) (cid : String) (vols : List Volume) :
    List.Forall₂ (fun a b => a.capacity_gb ≤ b.capacity_gb) vols
      (generate_event d cid vols).volumes
    ∧ (generate_event d cid vols).volumes
        = (if (weighted_choice EVENTS d.u).1 = "VOLUME_EXPANDED"
           then vols.set (d.volIdx % vols.length)
             { vols.getD (d.volIdx % vols.length) defVolume with
               capacity_gb := (vols.getD (d.volIdx % vols.length) defVolume).capacity_gb
                 + randint 100 500 d.branchX }
           else vols)
    ∧ 100 ≤ randint 100 500 d.branchX ∧ randint 100 500 d.branchX ≤ 500 := by
  have hv : (generate_event d cid vols).volumes
      = (branch (weighted_choice EVENTS d.u).1 (choice nodes defNode d.nodeIdx)
          (vols.getD (d.volIdx % vols.length) defVolume)
          (d.volIdx % vols.length) d.user d vols).2.2 := rfl
  rw [hv, branch_volumes]
  refine ⟨?_, rfl, ?_, ?_⟩
  · by_cases h : (weighted_choice EVENTS d.u).1 = "VOLUME_EXPANDED"
    · rw [if_pos h]
      exact capsMono vols (d.volIdx % vols.length) (randint 100 500 d.branchX)
    · rw [if_neg h]
      exact List.forall₂_same.mpr fun x _ => le_refl _
  · simp only [randint]; omega
  · simp only [randint]; omega

/-- C2: every call's `extra["event"]` equals the selected event name, the
returned severity is the one selected with it, and that severity is exactly
what the static catalog assigns to the name (with `DATA_WRITE ↦ INFO`,
`DISK_FAILURE ↦ CRITICAL` as spot checks). -/
theorem C2_event_field_and_severity (d : Draws) (cid : String) (vols : List Volume) :
    (generate_event d cid vols).extra.lookup "event"
        = some (.str (weighted_choice EVENTS d.u).1)
    ∧ (generate_event d cid vols).level = (weighted_choice EVENTS d.u).2
    ∧ catalogSeverity (weighted_choice EVENTS d.u).1 = (weighted_choice EVENTS d.u).2
    ∧ catalogSeverity "DATA_WRITE" = INFO ∧ catalogSeverity "DISK_FAILURE" = CRITICAL := by
  refine ⟨rfl, rfl, ?_, by decide, by decide⟩
  rcases weighted_choice_mem EVENTS d.u with hm | hf
  · have hall : ∀ q ∈ EVENTS.map (fun e => (e.1, e.2.1)),
        catalogSeverity q.1 = q.2 := by decide
    exact hall _ hm
  · rw [hf]
    decide

/-- C3: `weighted_choice` computes exactly the specification's algorithm:
with `r = u * total_weight`, it returns the first catalog entry (in catalog
order) whose cumulative weight strictly exceeds `r`, and the designated
default `("DATA_WRITE", INFO)` when the full scan leaves `r` unmatched. -/
theorem C3_weighted_choice_refines_spec (events : List (String × Nat × ℚ)) (u : ℚ) :
    weighted_choice events u = weightedChoiceSpec events u := by
  simp only [weighted_choice, weightedChoiceSpec]
  exact weightedScan_eq_find events _ 0

/-- C4 counterexample: an empty catalog does not fail fast — there is no
guard anywhere in `weighted_choice` (no division occurs at all); the call
returns the per-call fallback `("DATA_WRITE", INFO)` normally. -/
theorem C4_counterexample_no_fail_fast :
    weighted_choice ([] : List (String × Nat × ℚ)) 0 = ("DATA_WRITE", INFO) := rfl

/-- C4 (amended): an empty catalog or an all-zero-weight catalog is not
rejected at startup; `weighted_choice` handles it on every call by
returning the designated default `("DATA_WRITE", INFO)` — the selection
operation is total and never fails. -/
theorem C4_amended_degenerate_catalog_falls_back
    (events : List (String × Nat × ℚ)) (u : ℚ)
    (h : events = [] ∨ ∀ e ∈ events, e.2.2 = 0) :
    weighted_choice events u = ("DATA_WRITE", INFO) := by
  rcases h with h | h
  · subst h; rfl
  · have total0 : ((events.map fun e => e.2.2).sum : ℚ) = 0 :=
      List.sum_eq_zero (by intro x hx; rcases List.mem_map.mp hx with ⟨e, he, rfl⟩; exact h e he)
    simp only [weighted_choice, total0, mul_zero]
    exact weightedScan_all_zero events 0 h (lt_irrefl 0)

/-- C4 witness: the empty catalog, at draw `1/2`. -/
theorem C4_amended_witness :
    ((([] : List (String × Nat × ℚ)) = [] ∨ ∀ e ∈ ([] : List (String × Nat × ℚ)), e.2.2 = 0)
      ∧ weighted_choice ([] : List (String × Nat × ℚ)) (1/2) = ("DATA_WRITE", INFO)) :=
  ⟨Or.inl rfl, C4_amended_degenerate_catalog_falls_back [] (1/2) (Or.inl rfl)⟩

/-- Fixed PRNG draws (all indices zero, a non-bot user-agent roll) used to
exhibit the `uuid.uuid4()` entropy dependence: `u = 0` selects
`NODE_JOINED`. -/
def dEnt : Draws :=
  ⟨0, 0, 0, "jsmith", 0, 0, 0, 1, 0, 0, "10.0.0.77", 0, 0, 0, 0, 0, 0, 0, 0, 0, 0, 0, 0, 0, 0, 0⟩

/-- C5 counterexample: with every PRNG/Faker draw fixed, two calls whose
`uuid.uuid4()` results differ (as they do on every pair of real runs, since
`uuid4` draws OS entropy, not the seeded PRNG) produce different output:
the `correlation_id` field differs. -/
theorem C5_counterexample_uuid_entropy :
    generate_event dEnt "5f0c54b6" volumes ≠ generate_event dEnt "9a11c2d0" volumes := by
  intro h
  have h2 := congrArg (fun g => g.extra.lookup "correlation_id") h
  revert h2
  decide

/-- C5 (amended): two `generate_event` calls with the same PRNG/Faker draw
sequence and the same starting catalog agree on severity, message, the
resulting catalog, and every field except `correlation_id`, which simply
repeats whatever the per-call `uuid4` entropy was. -/
theorem C5_amended_deterministic_modulo_correlation_id
    (d : Draws) (cid1 cid2 : String) (vols : List Volume) :
    (generate_event d cid1 vols).level = (generate_event d cid2 vols).level
    ∧ (generate_event d cid1 vols).message = (generate_event d cid2 vols).message
    ∧ (generate_event d cid1 vols).volumes = (generate_event d cid2 vols).volumes
    ∧ ((generate_event d cid1 vols).extra).filter (fun kv => kv.1 != "correlation_id")
        = ((generate_event d cid2 vols).extra).filter (fun kv => kv.1 != "correlation_id")
    ∧ (generate_event d cid1 vols).extra.lookup "correlation_id" = some (.str cid1) :=
  ⟨rfl, rfl, rfl, rfl, rfl⟩

/-- C6: a singleton catalog (its one definition carrying a positive weight,
as the data model requires) is selected for every possible draw
`u ∈ [0, 1)`; the fallback is never taken. -/
theorem C6_singleton_catalog_always_selected (n : String) (lvl : Nat) (w : ℚ) (u : ℚ)
    (_h0 : 0 ≤ u) (h1 : u < 1) (hw : 0 < w) :
    weighted_choice [(n, lvl, w)] u = (n, lvl) := by
  simp only [weighted_choice, weightedScan, List.map_cons, List.map_nil, List.sum_cons,
    List.sum_nil, add_zero, zero_add]
  rw [if_pos ((mul_lt_iff_lt_one_left hw).mpr h1)]

/-- C6 witness: a one-entry catalog at draw `1/2`. -/
theorem C6_witness :
    ((0:ℚ) ≤ 1/2 ∧ (1:ℚ)/2 < 1 ∧ (0:ℚ) < 3/10
      ∧ weighted_choice [("DATA_READ", INFO, 3/10)] (1/2) = ("DATA_READ", INFO)) :=
  ⟨by norm_num, by norm_num, by norm_num,
   C6_singleton_catalog_always_selected "DATA_READ" INFO (3/10) (1/2)
     (by norm_num) (by norm_num) (by norm_num)⟩

/-- C7: whenever the selector picks `VOLUME_CREATED`, the message is
`Volume <id> CREATED with <N>GB` with `N = randint 100 3000 ∈ [100, 3000]`,
and `extra["created_by"]` is the Faker user name, a non-empty string
(Faker's `user_name()` never returns the empty string, taken here as the
hypothesis `d.user ≠ ""`). -/
theorem C7_volume_created_shape (d : Draws) (cid : String) (vols : List Volume)
    (hE : (weighted_choice EVENTS d.u).1 = "VOLUME_CREATED") (hu : d.user ≠ "") :
    (∃ N, 100 ≤ N ∧ N ≤ 3000
        ∧ (generate_event d cid vols).message
            = "Volume " ++ (vols.getD (d.volIdx % vols.length) defVolume).id
                ++ " CREATED with " ++ toString N ++ "GB")
    ∧ ∃ s, (generate_event d cid vols).extra.lookup "created_by"
        = some (.str s) ∧ s ≠ "" := by
  refine ⟨⟨randint 100 3000 d.branchX, ?_, ?_, ?_⟩, ⟨d.user, ?_, hu⟩⟩
  · simp only [randint]; omega
  · simp only [randint]; omega
  · simp only [generate_event, hE]; rfl
  · simp only [generate_event, hE]; rfl

/-- Fixed draws whose `u = 3/26` puts `r = 0.12` inside `VOLUME_CREATED`'s
cumulative-weight window `[0.11, 0.18)`. -/
def dVC : Draws :=
  ⟨3/26, 0, 0, "alice", 0, 0, 0, 1, 0, 0, "10.0.0.77", 0, 0, 0, 0, 0, 0, 0, 0, 0, 0, 0, 0, 0, 0, 0⟩

/-- C7 witness: concrete draws forcing `VOLUME_CREATED`. -/
theorem C7_witness :
    ((weighted_choice EVENTS dVC.u).1 = "VOLUME_CREATED" ∧ dVC.user ≠ "")
    ∧ ((∃ N, 100 ≤ N ∧ N ≤ 3000
        ∧ (generate_event dVC "w7" volumes).message
            = "Volume " ++ (volumes.getD (dVC.volIdx % volumes.length) defVolume).id
                ++ " CREATED with " ++ toString N ++ "GB")
      ∧ ∃ s, (generate_event dVC "w7" volumes).extra.lookup "created_by"
          = some (.str s) ∧ s ≠ "") :=
  ⟨⟨by norm_num [dVC, weighted_choice, weightedScan, EVENTS, INFO, WARNING, ERROR, CRITICAL],
    by decide⟩,
   C7_volume_created_shape dVC "w7" volumes
     (by norm_num [dVC, weighted_choice, weightedScan, EVENTS, INFO, WARNING, ERROR, CRITICAL])
     (by decide)⟩

/-- C8: whenever the selector picks `DISK_FAILURE`, the severity is
`CRITICAL`, `extra["disk_id"]` is `disk-<n>` with `n = randint 1 8 ∈ [1, 8]`,
and `extra["error_code"]` is one of `E101`, `E202`, `E303`. -/
theorem C8_disk_failure_shape (d : Draws) (cid : String) (vols : List Volume)
    (hE : (weighted_choice EVENTS d.u).1 = "DISK_FAILURE") :
    (generate_event d cid vols).level = CRITICAL
    ∧ (∃ n, 1 ≤ n ∧ n ≤ 8
        ∧ (generate_event d cid vols).extra.lookup "disk_id"
            = some (.str ("disk-" ++ toString n)))
    ∧ ((generate_event d cid vols).extra.lookup "error_code" = some (.str "E101")
        ∨ (generate_event d cid vols).extra.lookup "error_code" = some (.str "E202")
        ∨ (generate_event d cid vols).extra.lookup "error_code" = some (.str "E303")) := by
  refine ⟨?_, ⟨randint 1 8 d.branchX, ?_, ?_, ?_⟩, ?_⟩
  · show (weighted_choice EVENTS d.u).2 = CRITICAL
    rcases weighted_choice_mem EVENTS d.u with hm | hf
    · have hall : ∀ q ∈ EVENTS.map (fun e => (e.1, e.2.1)),
          q.1 = "DISK_FAILURE" → q.2 = CRITICAL := by decide
      exact hall _ hm hE
    · rw [hf] at hE
      exact absurd hE (by decide)
  · simp only [randint]; omega
  · simp only [randint]; omega
  · simp only [generate_event, hE]; rfl
  · have hec : (generate_event d cid vols).extra.lookup "error_code"
        = some (.str (choice ["E101", "E202", "E303"] "" d.branchIdx)) := by
      simp only [generate_event, hE]; rfl
    rw [hec]
    have hch : choice ["E101", "E202", "E303"] "" d.branchIdx
        = ["E101", "E202", "E303"].getD (d.branchIdx % 3) "" := rfl
    rw [hch]
    have h3 : d.branchIdx % 3 = 0 ∨ d.branchIdx % 3 = 1 ∨ d.branchIdx % 3 = 2 := by omega
    rcases h3 with h | h | h
    · rw [h]; exact Or.inl rfl
    · rw [h]; exact Or.inr (Or.inl rfl)
    · rw [h]; exact Or.inr (Or.inr rfl)

/-- Fixed draws whose `u = 101/104` puts `r = 1.01` inside `DISK_FAILURE`'s
cumulative-weight window `[1.01, 1.015)`. -/
def dDF : Draws :=
  ⟨101/104, 0, 0, "alice", 0, 0, 0, 1, 0, 0, "10.0.0.77", 0, 0, 0, 0, 0, 0, 0, 0, 0, 0, 0, 0, 0, 0, 0⟩

/-- C8 witness: concrete draws forcing `DISK_FAILURE`. -/
theorem C8_witness :
    ((weighted_choice EVENTS dDF.u).1 = "DISK_FAILURE")
    ∧ ((generate_event dDF "w8" volumes).level = CRITICAL
      ∧ (∃ n, 1 ≤ n ∧ n ≤ 8
          ∧ (generate_event dDF "w8" volumes).extra.lookup "disk_id"
              = some (.str ("disk-" ++ toString n)))
      ∧ ((generate_event dDF "w8" volumes).extra.lookup "error_code" = some (.str "E101")
          ∨ (generate_event dDF "w8" volumes).extra.lookup "error_code" = some (.str "E202")
          ∨ (generate_event dDF "w8" volumes).extra.lookup "error_code" = some (.str "E303"))) :=
  ⟨by norm_num [dDF, weighted_choice, weightedScan, EVENTS, INFO, WARNING, ERROR, CRITICAL],
   C8_disk_failure_shape dDF "w8" volumes
     (by norm_num [dDF, weighted_choice, weightedScan, EVENTS, INFO, WARNING, ERROR, CRITICAL])⟩

/-- C9: on a `VOLUME_EXPANDED` selection, the common field
`extra["volume_capacity_gb"]` holds the pre-expansion capacity — it equals
`extra["old_size_gb"]` and differs from `extra["new_size_gb"]` — because
the common field map is built from the volume snapshot taken before the
branch mutates the catalog. -/
theorem C9_expanded_capacity_field_is_old (d : Draws) (cid : String) (vols : List Volume)
    (hE : (weighted_choice EVENTS d.u).1 = "VOLUME_EXPANDED") :
    (generate_event d cid vols).extra.lookup "volume_capacity_gb"
        = some (.nat (vols.getD (d.volIdx % vols.length) defVolume).capacity_gb)
    ∧ (generate_event d cid vols).extra.lookup "old_size_gb"
        = some (.nat (vols.getD (d.volIdx % vols.length) defVolume).capacity_gb)
    ∧ (generate_event d cid vols).extra.lookup "new_size_gb"
        = some (.nat ((vols.getD (d.volIdx % vols.length) defVolume).capacity_gb
            + randint 100 500 d.branchX))
    ∧ (generate_event d cid vols).extra.lookup "volume_capacity_gb"
        ≠ (generate_event d cid vols).extra.lookup "new_size_gb" := by
  have h1 : (generate_event d cid vols).extra.lookup "volume_capacity_gb"
      = some (.nat (vols.getD (d.volIdx % vols.length) defVolume).capacity_gb) := by
    simp only [generate_event, hE]; rfl
  have h3 : (generate_event d cid vols).extra.lookup "new_size_gb"
      = some (.nat ((vols.getD (d.volIdx % vols.length) defVolume).capacity_gb
          + randint 100 500 d.branchX)) := by
    simp only [generate_event, hE]; rfl
  refine ⟨h1, by simp only [generate_event, hE]; rfl, h3, ?_⟩
  rw [h1, h3]
  intro heq
  have hv := Value.nat.inj (Option.some.inj heq)
  simp only [randint] at hv
  omega

/-- Fixed draws whose `u = 5/26` puts `r = 0.2` inside `VOLUME_EXPANDED`'s
cumulative-weight window `[0.18, 0.23)`. -/
def dVE : Draws :=
  ⟨5/26, 0, 0, "alice", 0, 0, 0, 1, 0, 0, "10.0.0.77", 0, 0, 0, 0, 0, 0, 0, 0, 0, 0, 0, 0, 0, 0, 0⟩

/-- C9 witness: concrete draws forcing `VOLUME_EXPANDED`. -/
theorem C9_witness :
    ((weighted_choice EVENTS dVE.u).1 = "VOLUME_EXPANDED")
    ∧ ((generate_event dVE "w9" volumes).extra.lookup "volume_capacity_gb"
          = some (.nat (volumes.getD (dVE.volIdx % volumes.length) defVolume).capacity_gb)
      ∧ (generate_event dVE "w9" volumes).extra.lookup "old_size_gb"
          = some (.nat (volumes.getD (dVE.volIdx % volumes.length) defVolume).capacity_gb)
      ∧ (generate_event dVE "w9" volumes).extra.lookup "new_size_gb"
          = some (.nat ((volumes.getD (dVE.volIdx % volumes.length) defVolume).capacity_gb
              + randint 100 500 dVE.branchX))
      ∧ (generate_event dVE "w9" volumes).extra.lookup "volume_capacity_gb"
          ≠ (generate_event dVE "w9" volumes).extra.lookup "new_size_gb") :=
  ⟨by norm_num [dVE, weighted_choice, weightedScan, EVENTS, INFO, WARNING, ERROR, CRITICAL],
   C9_expanded_capacity_field_is_old dVE "w9" volumes
     (by norm_num [dVE, weighted_choice, weightedScan, EVENTS, INFO, WARNING, ERROR, CRITICAL])⟩

/-- C10: on an `ALERT_CAPACITY` selection, `extra["usage_gb"]` equals the
picked volume's current capacity plus `randint 100 300 ∈ [100, 300]`, so
the reported usage strictly exceeds the capacity. -/
theorem C10_alert_capacity_usage_exceeds (d : Draws) (cid : String) (vols : List Volume)
    (hE : (weighted_choice EVENTS d.u).1 = "ALERT_CAPACITY") :
    (generate_event d cid vols).extra.lookup "usage_gb"
        = some (.nat ((vols.getD (d.volIdx % vols.length) defVolume).capacity_gb
            + randint 100 300 d.branchX))
    ∧ 100 ≤ randint 100 300 d.branchX ∧ randint 100 300 d.branchX ≤ 300
    ∧ (vols.getD (d.volIdx % vols.length) defVolume).capacity_gb
        < (vols.getD (d.volIdx % vols.length) defVolume).capacity_gb
            + randint 100 300 d.branchX := by
  refine ⟨by simp only [generate_event, hE]; rfl, ?_, ?_, ?_⟩
  · simp only [randint]; omega
  · simp only [randint]; omega
  · simp only [randint]; omega

/-- Fixed draws whose `u = 23/26` puts `r = 0.92` inside `ALERT_CAPACITY`'s
cumulative-weight window `[0.91, 0.93)`. -/
def dAC : Draws :=
  ⟨23/26, 0, 0, "alice", 0, 0, 0, 1, 0, 0, "10.0.0.77", 0, 0, 0, 0, 0, 0, 0, 0, 0, 0, 0, 0, 0, 0, 0⟩

/-- C10 witness: concrete draws forcing `ALERT_CAPACITY`. -/
theorem C10_witness :
    ((weighted_choice EVENTS dAC.u).1 = "ALERT_CAPACITY")
    ∧ ((generate_event dAC "w10" volumes).extra.lookup "usage_gb"
          = some (.nat ((volumes.getD (dAC.volIdx % volumes.length) defVolume).capacity_gb
              + randint 100 300 dAC.branchX))
      ∧ 100 ≤ randint 100 300 dAC.branchX ∧ randint 100 300 dAC.branchX ≤ 300
      ∧ (volumes.getD (dAC.volIdx % volumes.length) defVolume).capacity_gb
          < (volumes.getD (dAC.volIdx % volumes.length) defVolume).capacity_gb
              + randint 100 300 dAC.branchX) :=
  ⟨by norm_num [dAC, weighted_choice, weightedScan, EVENTS, INFO, WARNING, ERROR, CRITICAL],
   C10_alert_capacity_usage_exceeds dAC "w10" volumes
     (by norm_num [dAC, weighted_choice, weightedScan, EVENTS, INFO, WARNING, ERROR, CRITICAL])⟩

end App
